import Mathlib

/-!
Verification of the BudgetTracker core (src/BudgetTracker.py).

Shallow embedding of the budget-tracker program: a `Transaction` record with
a validating constructor, a `Store` holding an ordered transaction list and a
month-to-limit mapping, the mutating operations `add_transaction` and
`set_limit`, the read-only queries `summary` and `months`, and the
load/save persistence pair.

Modelling conventions:
* Python `float` amounts are modelled as exact rationals `ℚ`.
* A method that may raise is modelled as returning `Option Unit × Store` — the
  first component is `none` exactly when the Python code raises, and the
  second component is the store state after the call.
* `datetime.strptime(s, fmt)` for the two formats `"%Y-%m-%d"` and `"%Y-%m"`
  is modelled after CPython `_strptime.py`: `%Y` matches exactly four digit
  characters, `%m` matches the regex `1[0-2]|0[1-9]|[1-9]`, `%d` matches
  `3[01]|[12]\d|0[1-9]|[1-9]`, the whole string must be consumed, and the
  matched fields must form a valid proleptic-Gregorian date (year ≥ 1; the
  day, defaulting to 1 for `"%Y-%m"`, at most the length of that month).
  The digit class is modelled as the ASCII digits `0`-`9`.
* The Python `dict` for expense limits is modelled as an insertion-ordered
  association list with unique keys: assignment to an existing key replaces
  its value in place, assignment to a fresh key appends.
-/

namespace BudgetTracker

/-- Numeric value of an ASCII digit character. -/
def digitVal (c : Char) : Nat := c.toNat - 48

/-- CPython `_strptime` fragment `\d\d\d\d` for `%Y`: exactly four digits,
returning the year value and the rest of the input. -/
def year4 : List Char → Option (Nat × List Char)
  | a :: b :: c :: d :: rest =>
    if a.isDigit && b.isDigit && c.isDigit && d.isDigit then
      some (1000 * digitVal a + 100 * digitVal b + 10 * digitVal c + digitVal d, rest)
    else none
  | _ => none

/-- CPython `_strptime` fragments `1[0-2]|0[1-9]|[1-9]` (`%m`, `mx = 12`) and
`3[01]|[12]\d|0[1-9]|[1-9]` (`%d`, `mx = 31`): a two-digit value in `1..mx`
consumes two characters, otherwise a single digit `1`-`9` consumes one. -/
def field12 (mx : Nat) : List Char → Option (Nat × List Char)
  | a :: b :: rest =>
    if a.isDigit && b.isDigit then
      let v := 10 * digitVal a + digitVal b
      if decide (1 ≤ v) && decide (v ≤ mx) then some (v, rest)
      else if decide (1 ≤ digitVal a) then some (digitVal a, b :: rest)
      else none
    else if a.isDigit && decide (1 ≤ digitVal a) then some (digitVal a, b :: rest)
    else none
  | [a] => if a.isDigit && decide (1 ≤ digitVal a) then some (digitVal a, []) else none
  | [] => none

/-- Gregorian leap-year rule, as in Python's `datetime`. -/
def isLeap (y : Nat) : Bool := y % 4 == 0 && (y % 100 != 0 || y % 400 == 0)

/-- Length of a month, as in Python's `datetime`. -/
def daysInMonth (y m : Nat) : Nat :=
  if m == 2 then (if isLeap y then 29 else 28)
  else if m == 4 || m == 6 || m == 9 || m == 11 then 30
  else 31

/-- Success of Python `datetime.strptime(s, "%Y-%m-%d")` (line 19 of the
source): four digits, `-`, month field, `-`, day field, end of string, and
the resulting `(year, month, day)` must be a valid calendar date. -/
def strptimeYMD (s : String) : Bool :=
  match year4 s.data with
  | some (y, '-' :: r2) =>
    match field12 12 r2 with
    | some (m, '-' :: r4) =>
      match field12 31 r4 with
      | some (d, r5) => r5.isEmpty && decide (1 ≤ y) && decide (d ≤ daysInMonth y m)
      | none => false
    | _ => false
  | _ => false

/-- Success of Python `datetime.strptime(s, "%Y-%m")` (lines 49 and 56):
four digits, `-`, month field, end of string, year ≥ 1 (the day defaults
to 1, which every month has). -/
def strptimeYM (s : String) : Bool :=
  match year4 s.data with
  | some (y, '-' :: r2) =>
    match field12 12 r2 with
    | some (_, r3) => r3.isEmpty && decide (1 ≤ y)
    | none => false
  | _ => false

/-- The `Transaction` dataclass: four fields, lines 10-14 of the source. -/
structure Transaction where
  type : String
  amount : ℚ
  date : String
  description : String
deriving DecidableEq

/-- The invariant checked by `Transaction.__post_init__` (lines 16-19):
`type` is one of the two tags, `amount` is not negative, and `date` parses
under `"%Y-%m-%d"`. -/
def validTransaction (t : Transaction) : Bool :=
  (t.type == "income" || t.type == "expense") && !(decide (t.amount < 0)) && strptimeYMD t.date

/-- The validating constructor `Transaction(ttype, amount, date, desc)`.
`none` models the `ValueError` raised by `__post_init__`; no partially
constructed value exists in that case. -/
def mkTransaction (ttype : String) (amount : ℚ) (date : String) (desc : String) :
    Option Transaction :=
  let t : Transaction := ⟨ttype, amount, date, desc⟩
  if validTransaction t then some t else none

/-- The `BudgetTracker` object state (lines 22-26): the data-file path, the
ordered transaction list, and the month-to-limit mapping. -/
structure Store where
  data_file : String
  transactions : List Transaction
  expense_limits : List (String × ℚ)
deriving DecidableEq

/-- Python dict assignment `d[k] = v` on an insertion-ordered association
list: replace in place if the key exists, append otherwise. -/
def dictSet : List (String × ℚ) → String → ℚ → List (String × ℚ)
  | [], k, v => [(k, v)]
  | (k', v') :: rest, k, v =>
    if k' == k then (k, v) :: rest else (k', v') :: dictSet rest k v

/-- Python `d.get(k)`: the value stored at the first matching key, if any. -/
def dictGet : List (String × ℚ) → String → Option ℚ
  | [], _ => none
  | (k', v') :: rest, k => if k' == k then some v' else dictGet rest k

/-- Embeds `BudgetTracker.add_transaction` (lines 44-46): construct a `Transaction`
and append it; the `save()` call does not change the in-memory state. The
first component is `none` exactly when construction raises, and the store
is returned unchanged in that case (the append never runs). -/
def add_transaction (s : Store) (ttype : String) (amount : ℚ) (date : String)
    (desc : String) : Option Unit × Store :=
  match mkTransaction ttype amount date desc with
  | none => (none, s)
  | some t => (some (), { s with transactions := s.transactions ++ [t] })

/-- Embeds `BudgetTracker.set_limit` (lines 48-51): validate the month with
`strptime(month, "%Y-%m")`, then assign into the limits dict; the `save()`
call does not change the in-memory state. `none` models the raised
`ValueError`; the store is unchanged in that case. -/
def set_limit (s : Store) (month : String) (limit : ℚ) : Option Unit × Store :=
  if strptimeYM month then
    (some (), { s with expense_limits := dictSet s.expense_limits month limit })
  else (none, s)

/-- Python `date.startswith(month)`. -/
def pyStartswith (date month : String) : Bool := month.data.isPrefixOf date.data

/-- The summary record returned by `BudgetTracker.summary` (line 62). -/
structure Summary where
  month : String
  income : ℚ
  expense : ℚ
  balance : ℚ
  limit : Option ℚ
  status : String
deriving DecidableEq

/-- Embeds `BudgetTracker.summary` (lines 53-62): default the month to the clock's
current `YYYY-MM` when absent, validate it, filter by `startswith`, sum the
two kinds, look up the limit, and derive the status. `none` models the
`ValueError` raised on a month that fails `strptime(month, "%Y-%m")`. -/
def summary (s : Store) (monthOpt : Option String) (now : String) : Option Summary :=
  let month := monthOpt.getD now
  if strptimeYM month then
    let inc := ((s.transactions.filter fun t =>
      t.type == "income" && pyStartswith t.date month).map Transaction.amount).sum
    let exp := ((s.transactions.filter fun t =>
      t.type == "expense" && pyStartswith t.date month).map Transaction.amount).sum
    let limit := dictGet s.expense_limits month
    some { month := month, income := inc, expense := exp, balance := inc - exp,
           limit := limit,
           status := match limit with
             | none => "No limit set"
             | some l => if exp ≤ l then "Within limit" else "Limit exceeded" }
  else none

/-- Embeds `BudgetTracker.months` (lines 64-65): `sorted({t.date[:7] for t in
self.transactions})` — the distinct seven-character date prefixes in
lexicographic order. -/
def months (s : Store) : List String :=
  ((s.transactions.map fun t => (⟨t.date.data.take 7⟩ : String)).dedup).insertionSort (· ≤ ·)

/-- Method-call view of `summary`: the result together with the store after
the call (the method assigns to no attribute of `self`). -/
def summaryRun (s : Store) (monthOpt : Option String) (now : String) :
    Option Summary × Store :=
  (summary s monthOpt now, s)

/-- Method-call view of `months`: the result together with the store after
the call (the method assigns to no attribute of `self`). -/
def monthsRun (s : Store) : List String × Store :=
  (months s, s)

/-- The persisted JSON document shape (lines 41-42): a transaction list
(each entry the four `asdict` fields) and the limits mapping. -/
structure Document where
  transactions : List Transaction
  expense_limits : List (String × ℚ)
deriving DecidableEq

/-- Embeds `BudgetTracker.save` (lines 39-42): serialize the full in-memory state. -/
def save (s : Store) : Document :=
  ⟨s.transactions, s.expense_limits⟩

/-- What the constructor finds on disk: no file, a file that fails JSON
parsing (or whose entries are not even records of the right shape), or a
well-typed document. -/
inductive LoadSource where
  | absent
  | corrupt
  | doc (d : Document)
deriving DecidableEq

/-- Embeds `BudgetTracker.__init__` plus `load` (lines 22-37): start from empty state;
if a document is present, rebuild each transaction through the validating
constructor and take the limits mapping as-is; any failure (parse error or
a `ValueError` from `Transaction(**t)`) is caught by the bare `except` and
leaves both collections empty. The function is total: no failure is ever
surfaced to the caller. -/
def initStore (file : String) (src : LoadSource) : Store :=
  match src with
  | .absent => ⟨file, [], []⟩
  | .corrupt => ⟨file, [], []⟩
  | .doc d =>
    if d.transactions.all validTransaction then ⟨file, d.transactions, d.expense_limits⟩
    else ⟨file, [], []⟩

/-! ## Spec-side definitions

These follow the specification's words, for comparison with the embedded
code: the strict zero-padded patterns and the year-month prefix. -/

/-- Character-list form of the strict `YYYY-MM` pattern. -/
def strictYMChars : List Char → Bool
  | [y1, y2, y3, y4, '-', m1, m2] =>
    (y1.isDigit && y2.isDigit && y3.isDigit && y4.isDigit && m1.isDigit && m2.isDigit) &&
    decide (1 ≤ 1000 * digitVal y1 + 100 * digitVal y2 + 10 * digitVal y3 + digitVal y4) &&
    (decide (1 ≤ 10 * digitVal m1 + digitVal m2) && decide (10 * digitVal m1 + digitVal m2 ≤ 12))
  | _ => false

/-- The spec's strict `YYYY-MM` pattern: exactly four digits (a calendar
year, so not `0000`), a dash, and a zero-padded two-digit month `01`-`12`. -/
def strictYM (s : String) : Bool := strictYMChars s.data

/-- Character-list form of the strict `YYYY-MM-DD` pattern. -/
def strictYMDChars : List Char → Bool
  | [y1, y2, y3, y4, '-', m1, m2, '-', d1, d2] =>
    (y1.isDigit && y2.isDigit && y3.isDigit && y4.isDigit &&
     m1.isDigit && m2.isDigit && d1.isDigit && d2.isDigit) &&
    (let y := 1000 * digitVal y1 + 100 * digitVal y2 + 10 * digitVal y3 + digitVal y4
     let m := 10 * digitVal m1 + digitVal m2
     let d := 10 * digitVal d1 + digitVal d2
     decide (1 ≤ y) && (decide (1 ≤ m) && decide (m ≤ 12)) &&
     (decide (1 ≤ d) && decide (d ≤ daysInMonth y m)))
  | _ => false

/-- The spec's strict `YYYY-MM-DD` pattern: four-digit calendar year,
zero-padded two-digit month `01`-`12`, zero-padded two-digit day valid for
that month and year. -/
def strictYMD (s : String) : Bool := strictYMDChars s.data

/-- The seven-character year-month prefix of a date string (`t.date[:7]`). -/
def ymPrefix (date : String) : String := ⟨date.data.take 7⟩

/-! ## Helper lemmas -/

/-- The validation predicate, unfolded to a proposition. -/
theorem validTransaction_iff (t : Transaction) :
    validTransaction t = true ↔
      ((t.type = "income" ∨ t.type = "expense") ∧ 0 ≤ t.amount ∧ strptimeYMD t.date = true) := by
  simp [validTransaction, not_lt, and_assoc]

/-- A string matching the strict `YYYY-MM` pattern has exactly seven characters. -/
theorem strictYM_length {m : String} (h : strictYM m = true) : m.data.length = 7 := by
  obtain ⟨l⟩ := m
  rw [strictYM] at h
  show l.length = 7
  unfold strictYMChars at h
  split at h
  · rename_i y1 y2 y3 y4 m1 m2 heq
    have heq' : l = [y1, y2, y3, y4, '-', m1, m2] := heq
    rw [heq']
    rfl
  · simp at h

/-- The strict `YYYY-MM` pattern is accepted by the (lenient) `strptime`
month parser. -/
theorem strictYM_strptime {m : String} (h : strictYM m = true) : strptimeYM m = true := by
  obtain ⟨l⟩ := m
  rw [strictYM] at h
  unfold strictYMChars at h
  split at h
  · rename_i y1 y2 y3 y4 m1 m2 heq
    simp only [Bool.and_eq_true, decide_eq_true_eq] at h
    obtain ⟨⟨⟨⟨⟨⟨⟨hy1, hy2⟩, hy3⟩, hy4⟩, hm1⟩, hm2⟩, hy⟩, hm1v, hm2v⟩ := h
    have heq' : l = [y1, y2, y3, y4, '-', m1, m2] := heq
    rw [strptimeYM]
    rw [heq']
    simp [year4, field12, hy1, hy2, hy3, hy4, hm1, hm2, hy, hm1v, hm2v]
  · simp at h

/-- For a seven-character month string, Python's `date.startswith(month)`
is month-prefix equality: the first seven characters of `date` equal
`month`. -/
theorem pyStartswith_eq_ymPrefix {d m : String} (h : m.data.length = 7) :
    pyStartswith d m = (ymPrefix d == m) := by
  obtain ⟨ld⟩ := d
  obtain ⟨lm⟩ := m
  have hlen : lm.length = 7 := h
  rw [Bool.eq_iff_iff]
  simp only [pyStartswith, ymPrefix, List.isPrefixOf_iff_prefix, beq_iff_eq]
  show lm <+: ld ↔ (⟨List.take 7 ld⟩ : String) = ⟨lm⟩
  constructor
  · rintro ⟨t, rfl⟩
    have htake : List.take 7 (lm ++ t) = lm := by
      rw [← hlen]
      exact List.take_left lm t
    exact congrArg String.mk htake
  · intro hp
    have htake : List.take 7 ld = lm := congrArg String.data hp
    rw [← htake]
    exact List.take_prefix 7 ld

/-- Python dict assignment then lookup at the same key gives the assigned value. -/
theorem dictGet_dictSet_self (L : List (String × ℚ)) (k : String) (v : ℚ) :
    dictGet (dictSet L k v) k = some v := by
  induction L with
  | nil => simp [dictSet, dictGet]
  | cons p rest ih =>
    obtain ⟨k', v'⟩ := p
    by_cases h : k' = k <;> simp [dictSet, dictGet, h, ih]

/-- Python dict assignment leaves every other key's lookup unchanged. -/
theorem dictGet_dictSet_ne (L : List (String × ℚ)) {k k' : String} (v : ℚ)
    (h : k' ≠ k) : dictGet (dictSet L k v) k' = dictGet L k' := by
  induction L with
  | nil => simp [dictSet, dictGet, Ne.symm h]
  | cons p rest ih =>
    obtain ⟨a, b⟩ := p
    by_cases ha : a = k
    · subst ha
      simp [dictSet, dictGet, Ne.symm h]
    · by_cases ha' : a = k' <;> simp [dictSet, dictGet, ha, ha', ih, h]

/-! ## Claim theorems -/

/-- C3: for every store and every month in the strict `YYYY-MM` form,
`summary` succeeds and returns a record whose income is the sum of amounts
of the transactions of kind income whose date's seven-character year-month
prefix equals the month, whose expense is the same sum over kind expense,
and whose balance is income minus expense. -/
theorem summary_sums (s : Store) (m now : String) (h : strictYM m = true) :
    ∃ r, summary s (some m) now = some r ∧
      r.income = ((s.transactions.filter fun t =>
          t.type == "income" && (ymPrefix t.date == m)).map Transaction.amount).sum ∧
      r.expense = ((s.transactions.filter fun t =>
          t.type == "expense" && (ymPrefix t.date == m)).map Transaction.amount).sum ∧
      r.balance = r.income - r.expense := by
  have h7 : m.data.length = 7 := strictYM_length h
  have hp : strptimeYM m = true := strictYM_strptime h
  have hfilter : ∀ ty : String,
      (s.transactions.filter fun t => t.type == ty && pyStartswith t.date m)
        = s.transactions.filter fun t => t.type == ty && (ymPrefix t.date == m) := by
    intro ty
    apply List.filter_congr
    intro t _
    rw [pyStartswith_eq_ymPrefix h7]
  simp only [summary, Option.getD_some, hp, if_true, hfilter]
  exact ⟨_, rfl, rfl, rfl, rfl⟩

/-- C3 witness: the spec's Scenario A — income 1000 on 2024-01-05 and
expense 400 on 2024-01-10 give income 1000, expense 400, balance 600 for
month 2024-01. -/
theorem summary_sums_witness :
    (summary ⟨"budget_data.json",
        [⟨"income", 1000, "2024-01-05", "pay"⟩, ⟨"expense", 400, "2024-01-10", "rent"⟩],
        []⟩ (some "2024-01") "2024-12").map
      (fun r => (r.income, r.expense, r.balance)) = some (1000, 400, 600) := by
  obtain ⟨r, hr, h1, h2, h3⟩ := summary_sums ⟨"budget_data.json",
    [⟨"income", 1000, "2024-01-05", "pay"⟩, ⟨"expense", 400, "2024-01-10", "rent"⟩],
    []⟩ "2024-01" "2024-12" (by decide)
  rw [hr]
  have e1 : (List.filter (fun t => t.type == "income" && (ymPrefix t.date == "2024-01"))
      [(⟨"income", 1000, "2024-01-05", "pay"⟩ : Transaction),
       ⟨"expense", 400, "2024-01-10", "rent"⟩])
      = [⟨"income", 1000, "2024-01-05", "pay"⟩] := by decide
  have e2 : (List.filter (fun t => t.type == "expense" && (ymPrefix t.date == "2024-01"))
      [(⟨"income", 1000, "2024-01-05", "pay"⟩ : Transaction),
       ⟨"expense", 400, "2024-01-10", "rent"⟩])
      = [⟨"expense", 400, "2024-01-10", "rent"⟩] := by decide
  have hi : r.income = 1000 := by rw [h1]; simp [e1]
  have he : r.expense = 400 := by rw [h2]; simp [e2]
  have hb : r.balance = 600 := by rw [h3, hi, he]; norm_num
  simp [hi, he, hb]

/-- C4: for every store and every month in the strict `YYYY-MM` form, the
status of the summary is derived in order: no stored limit for the month
gives "No limit set"; otherwise expense at most the limit (equality
included) gives "Within limit"; otherwise "Limit exceeded". -/
theorem summary_status (s : Store) (m now : String) (h : strictYM m = true) :
    ∃ r, summary s (some m) now = some r ∧
      r.limit = dictGet s.expense_limits m ∧
      (dictGet s.expense_limits m = none → r.status = "No limit set") ∧
      (∀ l, dictGet s.expense_limits m = some l →
        (r.expense ≤ l → r.status = "Within limit") ∧
        (l < r.expense → r.status = "Limit exceeded")) := by
  have hp : strptimeYM m = true := strictYM_strptime h
  simp only [summary, Option.getD_some, hp, if_true]
  refine ⟨_, rfl, rfl, ?_, ?_⟩
  · intro hnone
    simp [hnone]
  · intro l hl
    refine ⟨fun hle => ?_, fun hlt => ?_⟩
    · simp [hl, if_pos hle]
    · simp [hl, if_neg (not_le.mpr hlt)]

/-- C4 witness: with no limit stored for 2024-01, the summary's status is
"No limit set". -/
theorem summary_status_witness :
    (summary ⟨"budget_data.json", [], []⟩ (some "2024-01") "2024-12").map Summary.status
      = some "No limit set" := by
  obtain ⟨r, hr, _, hno, _⟩ :=
    summary_status ⟨"budget_data.json", [], []⟩ "2024-01" "2024-12" (by decide)
  rw [hr]
  simp [hno rfl]

/-- C6: `months` returns the distinct seven-character year-month prefixes
drawn from the stored transactions' dates, as a lexicographically sorted,
duplicate-free sequence, and the empty sequence when the store holds no
transactions. -/
theorem months_sorted_distinct (s : Store) :
    (months s).Sorted (· ≤ ·) ∧ (months s).Nodup ∧
    (∀ m, m ∈ months s ↔ ∃ t ∈ s.transactions, ymPrefix t.date = m) ∧
    (s.transactions = [] → months s = []) := by
  unfold months
  have hperm := List.perm_insertionSort ((· ≤ ·) : String → String → Prop)
    ((s.transactions.map fun t => (⟨t.date.data.take 7⟩ : String)).dedup)
  refine ⟨List.sorted_insertionSort _ _, ?_, ?_, ?_⟩
  · exact hperm.nodup_iff.mpr (List.nodup_dedup _)
  · intro m
    rw [hperm.mem_iff, List.mem_dedup, List.mem_map]
    constructor
    · rintro ⟨t, ht, hm⟩
      exact ⟨t, ht, hm⟩
    · rintro ⟨t, ht, hm⟩
      exact ⟨t, ht, hm⟩
  · intro he
    rw [he]
    rfl

/-- C6 witness: the empty store yields the empty month list. -/
theorem months_sorted_distinct_witness :
    months ⟨"budget_data.json", [], []⟩ = [] :=
  (months_sorted_distinct ⟨"budget_data.json", [], []⟩).2.2.2 rfl

/-- C5: for every valid `(kind, amount, date, description)`,
`add_transaction` succeeds, appends exactly one `Transaction` holding the
four fields to the end of the sequence, the length grows by exactly one,
and the previously stored transactions are unchanged in order. -/
theorem add_transaction_appends (s : Store) (k : String) (a : ℚ) (d ds : String)
    (hk : k = "income" ∨ k = "expense") (ha : 0 ≤ a) (hd : strptimeYMD d = true) :
    (add_transaction s k a d ds).1 = some () ∧
    (add_transaction s k a d ds).2.transactions = s.transactions ++ [⟨k, a, d, ds⟩] ∧
    (add_transaction s k a d ds).2.transactions.length = s.transactions.length + 1 ∧
    (add_transaction s k a d ds).2.transactions.take s.transactions.length
      = s.transactions := by
  have hv : validTransaction ⟨k, a, d, ds⟩ = true :=
    (validTransaction_iff ⟨k, a, d, ds⟩).mpr ⟨hk, ha, hd⟩
  unfold add_transaction mkTransaction
  simp [hv, List.take_left]

/-- C5 witness: adding a valid income of 7 on 2024-01-05 to the empty store. -/
theorem add_transaction_appends_witness :
    (add_transaction ⟨"budget_data.json", [], []⟩ "income" 7 "2024-01-05" "pay").1
        = some () ∧
    (add_transaction ⟨"budget_data.json", [], []⟩ "income" 7 "2024-01-05" "pay").2.transactions
        = [] ++ [⟨"income", 7, "2024-01-05", "pay"⟩] ∧
    (add_transaction ⟨"budget_data.json", [], []⟩ "income" 7 "2024-01-05" "pay").2.transactions.length
        = List.length ([] : List Transaction) + 1 ∧
    (add_transaction ⟨"budget_data.json", [], []⟩ "income" 7 "2024-01-05" "pay").2.transactions.take
        (List.length ([] : List Transaction)) = ([] : List Transaction) :=
  add_transaction_appends ⟨"budget_data.json", [], []⟩ "income" 7 "2024-01-05" "pay"
    (Or.inl rfl) (by norm_num) (by decide)

/-- C7: saving a store to a document and loading from that same document
yields the same store (same transactions in the same order, same limit
mapping), whenever the document is well-formed, i.e. every persisted entry
passes `Transaction` validation. -/
theorem save_load_roundtrip (s : Store)
    (h : s.transactions.all validTransaction = true) :
    initStore s.data_file (.doc (save s)) = s := by
  simp [initStore, save, h]

/-- C7 witness: round trip for a concrete two-transaction store with a limit. -/
theorem save_load_roundtrip_witness :
    initStore "budget_data.json"
        (.doc (save ⟨"budget_data.json",
          [⟨"income", 1000, "2024-01-05", "pay"⟩, ⟨"expense", 400, "2024-01-10", "rent"⟩],
          [("2024-01", 300)]⟩))
      = ⟨"budget_data.json",
          [⟨"income", 1000, "2024-01-05", "pay"⟩, ⟨"expense", 400, "2024-01-10", "rent"⟩],
          [("2024-01", 300)]⟩ :=
  save_load_roundtrip ⟨"budget_data.json",
    [⟨"income", 1000, "2024-01-05", "pay"⟩, ⟨"expense", 400, "2024-01-10", "rent"⟩],
    [("2024-01", 300)]⟩ (by decide)

/-- C8: when the persisted document is absent, fails to parse, or contains
an entry that fails `Transaction` validation, the constructor initializes
the store to empty transactions and empty limits; `initStore` is total, so
the failure is never surfaced to the caller. -/
theorem load_failure_empty (file : String) (d : Document)
    (h : d.transactions.all validTransaction = false) :
    initStore file .absent = ⟨file, [], []⟩ ∧
    initStore file .corrupt = ⟨file, [], []⟩ ∧
    initStore file (.doc d) = ⟨file, [], []⟩ := by
  refine ⟨rfl, rfl, ?_⟩
  simp [initStore, h]

/-- C8 witness: a document holding a single invalid entry (negative amount)
loads as the empty store. -/
theorem load_failure_empty_witness :
    initStore "budget_data.json" .absent = ⟨"budget_data.json", [], []⟩ ∧
    initStore "budget_data.json" .corrupt = ⟨"budget_data.json", [], []⟩ ∧
    initStore "budget_data.json"
        (.doc ⟨[⟨"income", -3, "2024-01-05", "bad"⟩], []⟩)
      = ⟨"budget_data.json", [], []⟩ :=
  load_failure_empty "budget_data.json" ⟨[⟨"income", -3, "2024-01-05", "bad"⟩], []⟩
    (by decide)

/-- C9: `summary` and `months` are read-only — the store after the call is
the store before it — and their results depend only on the transaction
sequence and the limit mapping (plus the injected clock), not on any other
store component. -/
theorem summary_months_readonly (s s' : Store) (mo : Option String) (now : String)
    (ht : s.transactions = s'.transactions) (hl : s.expense_limits = s'.expense_limits) :
    (summaryRun s mo now).2 = s ∧ (monthsRun s).2 = s ∧
    (summaryRun s mo now).1 = (summaryRun s' mo now).1 ∧
    (monthsRun s).1 = (monthsRun s').1 := by
  refine ⟨rfl, rfl, ?_, ?_⟩
  · simp only [summaryRun, summary, ht, hl]
  · simp only [monthsRun, months, ht]

/-- C9 witness: two stores differing only in their data-file path give the
same summary and month list, and neither call changes the store. -/
theorem summary_months_readonly_witness :
    (summaryRun ⟨"a.json", [⟨"income", 2, "2024-01-05", "x"⟩], []⟩ (some "2024-01") "2024-02").2
        = ⟨"a.json", [⟨"income", 2, "2024-01-05", "x"⟩], []⟩ ∧
    (monthsRun ⟨"a.json", [⟨"income", 2, "2024-01-05", "x"⟩], []⟩).2
        = ⟨"a.json", [⟨"income", 2, "2024-01-05", "x"⟩], []⟩ ∧
    (summaryRun ⟨"a.json", [⟨"income", 2, "2024-01-05", "x"⟩], []⟩ (some "2024-01") "2024-02").1
        = (summaryRun ⟨"b.json", [⟨"income", 2, "2024-01-05", "x"⟩], []⟩ (some "2024-01") "2024-02").1 ∧
    (monthsRun ⟨"a.json", [⟨"income", 2, "2024-01-05", "x"⟩], []⟩).1
        = (monthsRun ⟨"b.json", [⟨"income", 2, "2024-01-05", "x"⟩], []⟩).1 :=
  summary_months_readonly ⟨"a.json", [⟨"income", 2, "2024-01-05", "x"⟩], []⟩
    ⟨"b.json", [⟨"income", 2, "2024-01-05", "x"⟩], []⟩ (some "2024-01") "2024-02" rfl rfl

/-- C1 counterexample: the date `"2024-1-5"` fails the spec's strict
`YYYY-MM-DD` pattern (its month is not two-digit), yet `add_transaction`
accepts it without raising — so the claimed "raises exactly when … the
date string fails strict YYYY-MM-DD parsing" is false on the code. -/
theorem add_transaction_strict_counterexample :
    strictYMD "2024-1-5" = false ∧
    (add_transaction ⟨"budget_data.json", [], []⟩ "income" 1 "2024-1-5" "pay").1
      = some () := by
  decide

/-- C1 (amended): `add_transaction` raises exactly when the kind is not one
of the two tags, the amount is negative, or the date fails Python's
`strptime("%Y-%m-%d")` parsing — which accepts, besides the strict
zero-padded form, one- or two-digit months `1`-`12` and days valid for the
month, e.g. `"2024-1-5"`. Whenever it raises, the store (in particular its
transaction sequence) is unchanged, and no transaction value exists. -/
theorem add_transaction_raises_iff (s : Store) (k : String) (a : ℚ) (d ds : String) :
    ((add_transaction s k a d ds).1 = none ↔
      (¬(k = "income" ∨ k = "expense") ∨ a < 0 ∨ ¬strptimeYMD d = true)) ∧
    ((add_transaction s k a d ds).1 = none → (add_transaction s k a d ds).2 = s) := by
  have hiff : (add_transaction s k a d ds).1 = none ↔
      validTransaction ⟨k, a, d, ds⟩ = false := by
    unfold add_transaction mkTransaction
    cases hv : validTransaction ⟨k, a, d, ds⟩ <;> simp [hv]
  constructor
  · rw [hiff]
    constructor
    · intro hf
      have hnv : ¬ ((k = "income" ∨ k = "expense") ∧ 0 ≤ a ∧ strptimeYMD d = true) := by
        intro hc
        have hvt := (validTransaction_iff ⟨k, a, d, ds⟩).mpr hc
        rw [hf] at hvt
        exact Bool.false_ne_true hvt
      by_cases h1 : (k = "income" ∨ k = "expense")
      · by_cases h2 : (0 : ℚ) ≤ a
        · exact Or.inr (Or.inr fun h3 => hnv ⟨h1, h2, h3⟩)
        · exact Or.inr (Or.inl (lt_of_not_le h2))
      · exact Or.inl h1
    · intro hcases
      cases hv : validTransaction ⟨k, a, d, ds⟩ with
      | false => rfl
      | true =>
        obtain ⟨g1, g2, g3⟩ := (validTransaction_iff ⟨k, a, d, ds⟩).mp hv
        rcases hcases with h1 | h2 | h3
        · exact absurd g1 h1
        · exact absurd g2 (not_le.mpr h2)
        · exact absurd g3 h3
  · intro hn
    unfold add_transaction at hn ⊢
    cases hm : mkTransaction k a d ds with
    | none => rfl
    | some t => rw [hm] at hn; simp at hn

/-- C1 witness: an invalid kind is rejected and leaves the store unchanged. -/
theorem add_transaction_raises_iff_witness :
    (add_transaction ⟨"budget_data.json", [], []⟩ "transfer" 1 "2024-01-05" "x").1
        = none ∧
    (add_transaction ⟨"budget_data.json", [], []⟩ "transfer" 1 "2024-01-05" "x").2
        = ⟨"budget_data.json", [], []⟩ :=
  have h := add_transaction_raises_iff ⟨"budget_data.json", [], []⟩ "transfer" 1
    "2024-01-05" "x"
  have h1 : (add_transaction ⟨"budget_data.json", [], []⟩ "transfer" 1 "2024-01-05" "x").1
      = none := h.1.mpr (Or.inl (by decide))
  ⟨h1, h.2 h1⟩

/-- C2 counterexample: `set_limit` accepts and stores a negative limit
(no `ValidationError`), and it also accepts the month `"2024-1"`, which
does not match the strict `YYYY-MM` pattern — so both the negative-limit
check and the strict-month check claimed by the spec are absent. -/
theorem set_limit_counterexample :
    (set_limit ⟨"budget_data.json", [], []⟩ "2024-01" (-1)).1 = some () ∧
    dictGet (set_limit ⟨"budget_data.json", [], []⟩ "2024-01" (-1)).2.expense_limits
        "2024-01" = some (-1) ∧
    strictYM "2024-1" = false ∧
    (set_limit ⟨"budget_data.json", [], []⟩ "2024-1" 100).1 = some () := by
  decide

/-- C2 (amended): `set_limit` raises exactly when the month fails Python's
`strptime("%Y-%m")` parsing (which also accepts unpadded months such as
`"2024-1"`); the limit value is not validated, so negative limits are
accepted and stored. On failure the store — in particular the
month-to-limit mapping — is unchanged; on success the limit stored for the
month is overwritten (last write wins), every other month's limit is
untouched, and the transaction sequence is untouched. -/
theorem set_limit_spec (s : Store) (m : String) (l : ℚ) :
    ((set_limit s m l).1 = none ↔ strptimeYM m = false) ∧
    ((set_limit s m l).1 = none → (set_limit s m l).2 = s) ∧
    (strptimeYM m = true →
      (set_limit s m l).1 = some () ∧
      dictGet (set_limit s m l).2.expense_limits m = some l ∧
      (set_limit s m l).2.transactions = s.transactions ∧
      ∀ k, k ≠ m → dictGet (set_limit s m l).2.expense_limits k
        = dictGet s.expense_limits k) := by
  cases hm : strptimeYM m with
  | false => simp [set_limit, hm]
  | true =>
    refine ⟨by simp [set_limit, hm], by simp [set_limit, hm],
      fun _ => ⟨by simp [set_limit, hm], ?_, by simp [set_limit, hm], ?_⟩⟩
    · simp [set_limit, hm, dictGet_dictSet_self]
    · intro k hk
      simp [set_limit, hm, dictGet_dictSet_ne _ l hk]

/-- C2 witness: overwriting an existing limit, and a malformed month
leaving the store unchanged. -/
theorem set_limit_spec_witness :
    dictGet (set_limit ⟨"budget_data.json", [], [("2024-01", 5)]⟩ "2024-01" 7).2.expense_limits
        "2024-01" = some 7 ∧
    (set_limit ⟨"budget_data.json", [], [("2024-01", 5)]⟩ "2024-13" 7).2
        = ⟨"budget_data.json", [], [("2024-01", 5)]⟩ :=
  ⟨((set_limit_spec ⟨"budget_data.json", [], [("2024-01", 5)]⟩ "2024-01" 7).2.2
      (by decide)).2.1,
   (set_limit_spec ⟨"budget_data.json", [], [("2024-01", 5)]⟩ "2024-13" 7).2.1
      (by decide)⟩

/-- C10: the month validation shared by `set_limit` and `summary` accepts
`"2024-1"`, which is not in the canonical zero-padded `YYYY-MM` form, and
with that month the prefix filter of `summary` counts a transaction dated
`"2024-10-05"` — a different calendar month — into its sums. -/
theorem month_validation_lenient :
    strptimeYM "2024-1" = true ∧
    strictYM "2024-1" = false ∧
    (set_limit ⟨"budget_data.json", [], []⟩ "2024-1" 100).1 = some () ∧
    (summary ⟨"budget_data.json", [⟨"expense", 5, "2024-10-05", "rent"⟩], []⟩
        (some "2024-1") "2024-12").map Summary.expense = some 5 := by
  refine ⟨by decide, by decide, by decide, ?_⟩
  have h1 : strptimeYM "2024-1" = true := by decide
  have h2 : pyStartswith "2024-10-05" "2024-1" = true := by decide
  have h3 : ("expense" == "income") = false := by decide
  simp [summary, h1, h2, h3]

end BudgetTracker
